import Mathlib

/-!
Shallow embedding of the Zerynth ST7735 display driver (st7735.py) and
verification of its specified behaviour.  Python integers are modelled as
Int (coordinates, which may be negative) or Nat (byte values); Python
exceptions are modelled with an explicit error type; fallible operations
return Except.  The driver instance attributes live in a single State
record; attributes that the constructor leaves unset are Options, and
reading an unset one raises the Python AttributeError.
-/

set_option maxRecDepth 100000

namespace ST7735

/-- Errors of the embedding.  The Python source raises ValueError for
argument validation, and list indexing and attribute access can raise
IndexError and AttributeError.  The constructors fontError and glyphError
exist only to state the error taxonomy of the specification; the source
defines no such exceptions and the embedding never produces them. -/
inductive PyErr where
  | valueError : PyErr
  | indexError : PyErr
  | attrError : PyErr
  | fontError : PyErr
  | glyphError : PyErr
deriving DecidableEq

deriving instance DecidableEq for Except

/-- Python list subscription l[i]: a negative index is taken from the end
(one wrap only); anything still out of range raises IndexError. -/
def pyGet (l : List Nat) (i : Int) : Except PyErr Nat :=
  let n : Int := l.length
  let j := if i < 0 then i + n else i
  if 0 ≤ j ∧ j < n then .ok (l.getD j.toNat 0) else .error .indexError

/-- Reading a possibly unset attribute: None means the attribute was never
assigned, so the access raises AttributeError. -/
def attr {α : Type} (o : Option α) : Except PyErr α :=
  match o with
  | some v => .ok v
  | none => .error .attrError

/-- Python x << k on a (possibly negative) int is multiplication by 2 ^ k. -/
def pyShlInt (x : Int) (k : Nat) : Int := x * 2 ^ k

def ST7735_TFTWIDTH : Int := 80
def ST7735_TFTHEIGHT : Int := 160

def ST7735_MAD_MY : Nat := 0x80
def ST7735_MAD_MX : Nat := 0x40
def ST7735_MAD_MV : Nat := 0x20
def ST7735_MAD_ML : Nat := 0x10
def ST7735_MAD_BGR : Nat := 0x08
def ST7735_MAD_MH : Nat := 0x04
def ST7735_MAD_RGB : Nat := 0x00

def OLED_TEXT_ALIGN_NONE : Nat := 0
def OLED_TEXT_ALIGN_LEFT : Nat := 0x1
def OLED_TEXT_ALIGN_RIGHT : Nat := 0x2
def OLED_TEXT_ALIGN_CENTER : Nat := 0x3
def OLED_TEXT_VALIGN_TOP : Nat := 0x10
def OLED_TEXT_VALIGN_BOTTOM : Nat := 0x20
def OLED_TEXT_VALIGN_CENTER : Nat := 0x30

def OLED_TEXT_ALIGN : List Nat :=
  [OLED_TEXT_ALIGN_NONE, OLED_TEXT_ALIGN_LEFT, OLED_TEXT_ALIGN_RIGHT,
   OLED_TEXT_ALIGN_CENTER, OLED_TEXT_VALIGN_TOP, OLED_TEXT_VALIGN_BOTTOM,
   OLED_TEXT_VALIGN_CENTER]

/-- The attributes of one ST7735 driver instance.  Geometry fields are set
by the constructor and set_rotation; the text fields start unset (None)
and are filled in by set_font and set_text_prop. -/
structure State where
  width : Int
  height : Int
  colstart : Int
  rowstart : Int
  rotation : Int
  font : Option (List Nat)
  first_char : Option Nat
  last_char : Option Nat
  font_height : Option Nat
  font_color : Option (Nat × Nat)
  align : Option Nat
  background : Option (Nat × Nat)
deriving DecidableEq

/-- The address window emitted by prepare: CASET bounds x0..x1 and RASET
bounds y0..y1, already offset by colstart and rowstart. -/
structure Window where
  x0 : Int
  x1 : Int
  y0 : Int
  y1 : Int
deriving DecidableEq

/-- Embeds method _color565: pack an RGB triple to the 16-bit 565 value.
The source subscripts color[0], color[1], color[2]. -/
def color565 (color : List Nat) : Except PyErr Nat := do
  let r ← pyGet color 0
  let g ← pyGet color 1
  let b ← pyGet color 2
  pure (((r &&& 0xF8) <<< 8) ||| ((g &&& 0xFC) <<< 3) ||| (b >>> 3))

/-- Embeds method _set_color: the 565 value split into its high and low byte. -/
def set_color (color : List Nat) : Except PyErr (Nat × Nat) := do
  let c ← color565 color
  pure (c >>> 8, c &&& 0x00FF)

/-- Embeds method _create_send_buffer: a bytearray of lenght pixels, each
the two color bytes d1, d2 in order. -/
def create_send_buffer (lenght : Int) (d1 d2 : Nat) : List Nat :=
  (List.replicate lenght.toNat [d1, d2]).flatten

/-- Embeds method _prepare: the window bounds it sends, each offset by
colstart (columns) and rowstart (rows). -/
def prepare (st : State) (x0 y0 x1 y1 : Int) : Window :=
  { x0 := x0 + st.colstart, x1 := x1 + st.colstart,
    y0 := y0 + st.rowstart, y1 := y1 + st.rowstart }

/-- Embeds method fill_rect: validate, clamp an origin sitting exactly on
the far edge, truncate an oversize rectangle, then emit the window and the
pixel buffer.  The type of the color argument plays the role of the
PLIST check of the source. -/
def fill_rect (st : State) (x y w h : Int) (color : List Nat) :
    Except PyErr (Window × List Nat) :=
  if x > st.width ∨ y > st.height then .error .valueError
  else if w < 1 ∨ h < 1 ∨ x < 0 ∨ y < 0 then .error .valueError
  else
    let x := if x = st.width then st.width - 1 else x
    let y := if y = st.height then st.height - 1 else y
    let w := if x + w > st.width then st.width - x else w
    let h := if y + h > st.height then st.height - y else h
    let win := prepare st x y (x + w - 1) (y + h - 1)
    match set_color color with
    | .error e => .error e
    | .ok (d1, d2) => .ok (win, create_send_buffer (w * h) d1 d2)

/-- Embeds method draw_pixel.  The source passes the constants 1, 1 as the
third and fourth argument of _prepare, which _prepare documents as the
maximum x and y pixel bounds. -/
def draw_pixel (st : State) (x y : Int) (color : List Nat) :
    Except PyErr (Window × List Nat) :=
  if x > st.width ∨ y > st.height then .error .valueError
  else if x < 0 ∨ y < 0 then .error .valueError
  else
    let x := if x = st.width then st.width - 1 else x
    let y := if y = st.height then st.height - 1 else y
    let win := prepare st x y 1 1
    match set_color color with
    | .error e => .error e
    | .ok (d1, d2) => .ok (win, [d1, d2])

/-- Embeds method draw_line.  Under the comment about the line going out of
the display the source assigns w = self.width - x and then never reads w
again; the local binding below reproduces that dead store. -/
def draw_line (st : State) (x y lenght : Int) (color : List Nat) :
    Except PyErr (Window × List Nat) :=
  if x > st.width ∨ y > st.height then .error .valueError
  else if x < 0 ∨ y < 0 ∨ lenght < 1 then .error .valueError
  else
    let x := if x = st.width then st.width - 1 else x
    let y := if y = st.height then st.height - 1 else y
    let _w := if x + lenght > st.width then st.width - x else (0 : Int)
    match set_color color with
    | .error e => .error e
    | .ok (d1, d2) =>
      let win := prepare st x y (x + lenght - 1) y
      .ok (win, create_send_buffer lenght d1 d2)

/-- One row of the class attribute rotation_settings: the MADCTL data byte,
the values assigned to colstart and rowstart, and the dimension flag. -/
structure RotSetting where
  madctl : Nat
  v1 : Int
  v2 : Int
  dims : String
deriving DecidableEq

/-- Embeds the class attribute rotation_settings. -/
def rotation_settings : List RotSetting :=
  [⟨ST7735_MAD_MX ||| ST7735_MAD_MY ||| ST7735_MAD_MH ||| ST7735_MAD_BGR, 26, 1, ""⟩,
   ⟨ST7735_MAD_MV ||| ST7735_MAD_MY ||| ST7735_MAD_BGR, 1, 26, "swap"⟩,
   ⟨ST7735_MAD_BGR, 26, 1, ""⟩,
   ⟨ST7735_MAD_MX ||| ST7735_MAD_MV ||| ST7735_MAD_BGR, 1, 26, "swap"⟩]

/-- Embeds method set_rotation: reject values outside 0..3, otherwise send
MADCTL with the selected data byte and update rotation, colstart, rowstart
and the (possibly swapped) dimensions.  The returned Nat is the MADCTL
data byte sent to the device. -/
def set_rotation (st : State) (rotation : Int) : Except PyErr (Nat × State) :=
  if rotation ∉ ([0, 1, 2, 3] : List Int) then .error .valueError
  else
    let values := rotation_settings.getD rotation.toNat ⟨0, 0, 0, ""⟩
    let st := { st with rotation := rotation, colstart := values.v1, rowstart := values.v2 }
    let st := if values.dims = "swap"
      then { st with width := ST7735_TFTHEIGHT, height := ST7735_TFTWIDTH }
      else { st with width := ST7735_TFTWIDTH, height := ST7735_TFTHEIGHT }
    .ok (values.madctl, st)

/-- The instance state right after the attribute assignments of the
constructor: width and height are the native panel size and no text
attribute is set.  The source leaves colstart, rowstart and rotation
unassigned until set_rotation runs during _init; the zero placeholders
below are overwritten by it before any use. -/
def construction_state : State :=
  { width := ST7735_TFTWIDTH, height := ST7735_TFTHEIGHT,
    colstart := 0, rowstart := 0, rotation := 0,
    font := none, first_char := none, last_char := none, font_height := none,
    font_color := none, align := none, background := none }

/-- The default value of the rotation parameter of set_rotation. -/
def set_rotation_default_arg : Int := 1

/-- Embeds the rotation step of _init: the constructor calls reset, which
runs _init, which calls set_rotation with its default argument. -/
def init_device : Except PyErr (Nat × State) :=
  set_rotation construction_state set_rotation_default_arg

/-- The device state once construction has completed (set_rotation with the
default argument always succeeds, so the fallback branch is unreachable). -/
def init_state : State :=
  match init_device with
  | .ok (_, st) => st
  | .error _ => construction_state

/-- The tail of method _set_font: default the font color to white and store
its two encoded bytes.  Still inside the try block of the source, so a
failure of _set_color is caught; the Bool records whether an exception was
caught (and printed), in which case nothing reaches the caller. -/
def set_font_color (st : State) (font_color : Option (List Nat)) : State × Bool :=
  let fc := match font_color with
    | none => [255, 255, 255]
    | some l => l
  match set_color fc with
  | .ok p => ({ st with font_color := some p }, false)
  | .error _ => (st, true)

/-- Embeds method _set_font.  The whole body sits in a try block whose
except clause prints the failure, so no exception ever propagates to the
caller; attribute assignments made before the failing subscription stay in
place.  The Bool of the result is true when an exception was caught. -/
def set_font (st : State) (font : Option (List Nat)) (font_color : Option (List Nat)) :
    State × Bool :=
  match font with
  | some f =>
    let st1 := { st with font := some f }
    match pyGet f 2, pyGet f 3 with
    | .ok a2, .ok a3 =>
      let st2 := { st1 with first_char := some (a2 ||| (a3 <<< 8)) }
      match pyGet f 4, pyGet f 5 with
      | .ok a4, .ok a5 =>
        let st3 := { st2 with last_char := some (a4 ||| (a5 <<< 8)) }
        match pyGet f 6 with
        | .ok a6 => set_font_color { st3 with font_height := some a6 } font_color
        | .error _ => (st3, true)
      | _, _ => (st2, true)
    | _, _ => (st1, true)
  | none => set_font_color st font_color

/-- Embeds method _set_text_prop: alignments outside the accepted list fall
back to center; the background color defaults to black.  The _set_color
call here is not inside a try block, so its errors propagate. -/
def set_text_prop (st : State) (align : Nat) (background : Option (List Nat)) :
    Except PyErr State := do
  let a := if align ∈ OLED_TEXT_ALIGN then align else OLED_TEXT_ALIGN_CENTER
  let bg := match background with
    | none => [0, 0, 0]
    | some l => l
  let p ← set_color bg
  pure { st with align := some a, background := some p }

/-- The loop of method _get_text_width: for each character add the glyph
width from the font directory plus one spacing pixel.  The attributes
first_char and font are read inside the loop, so an empty text never
touches them. -/
def get_text_width_loop (st : State) : List Nat → Int → Except PyErr Int
  | [], t_width => .ok t_width
  | c :: cs, t_width => do
    let fc ← attr st.first_char
    let f ← attr st.font
    let index : Int := 8 + pyShlInt ((c : Int) - (fc : Int)) 2
    let wc ← pyGet f index
    get_text_width_loop st cs (t_width + (wc : Int) + 1)

/-- Embeds method _get_text_width: the loop total minus the trailing
spacing pixel.  The subtraction runs unconditionally, also for an empty
text. -/
def get_text_width (st : State) (text : List Nat) : Except PyErr Int := do
  let t ← get_text_width_loop st text 0
  pure (t - 1)

/-- The while loop of method _write_c_to_buf.  One iteration per remaining
pixel: when x_count is 0 the mask restarts at 1 and the next bitmap byte
is fetched from the font (an out-of-range fetch raises IndexError,
uncaught); a set bit appends the two foreground bytes, a clear bit the two
background bytes; the mask doubles each pixel and after c_width pixels the
byte position advances.  The source writes the pairs at consecutive
positions of a preallocated bytearray, which the appends reproduce. -/
def writeLoop (f : List Nat) (fg bg : Nat × Nat) (c_width : Nat) :
    Nat → Nat → Nat → Nat → Nat → List Nat → Except PyErr (List Nat)
  | 0, _mask, _byte, _x_count, _offset, buf => .ok buf
  | n + 1, mask, byte, x_count, offset, buf =>
    let fetched : Except PyErr (Nat × Nat) :=
      if x_count = 0 then
        match pyGet f (offset : Int) with
        | .error e => .error e
        | .ok b => .ok (1, b)
      else .ok (mask, byte)
    match fetched with
    | .error e => .error e
    | .ok (m, b) =>
      let px := if b &&& m ≠ 0 then [fg.1, fg.2] else [bg.1, bg.2]
      let xc := x_count + 1
      if xc = c_width then
        writeLoop f fg bg c_width n (m <<< 1) b 0 (offset + 1) (buf ++ px)
      else
        writeLoop f fg bg c_width n (m <<< 1) b xc offset (buf ++ px)

/-- Embeds method _write_c_to_buf: look up the glyph directory entry of the
character (width byte and 3-byte bitmap offset) and unpack the glyph
bitmap to the colored pixel buffer; returns the buffer and the glyph
width.  The source reads font_color and background lazily inside the
loop; they are read up front here, which is indistinguishable whenever
both are set, as they are on every path draw_text reaches this code. -/
def write_c_to_buf (st : State) (c : Nat) : Except PyErr (List Nat × Nat) := do
  let fc ← attr st.first_char
  let f ← attr st.font
  let idx : Int := 8 + pyShlInt ((c : Int) - (fc : Int)) 2
  let c_width ← pyGet f idx
  let b1 ← pyGet f (idx + 1)
  let b2 ← pyGet f (idx + 2)
  let b3 ← pyGet f (idx + 3)
  let offset := b1 ||| (b2 <<< 8) ||| (b3 <<< 16)
  let fh ← attr st.font_height
  let fg ← attr st.font_color
  let bg ← attr st.background
  let area := fh * c_width
  let buf ← writeLoop f fg bg c_width area 0 0 0 offset []
  pure (buf, c_width)

/-- Modelled from the spec: the external font asset module (fonts.py is not
part of src); draw_text falls back to it when no font is passed.  Its
contents are opaque here and no claim exercises this branch. -/
def guiFont_Tahoma_7_Regular : List Nat := []

/-- Embeds the layout phase of method draw_text: argument validation, font
and text-property setup and the resolution of the box width and height.
This covers the source up to and including the h default; everything
afterwards (dynamic-area fill, _prepare, _send_data) only runs when this
phase returns without error, so an error here precedes any device write. -/
def draw_text_layout (st : State) (text : List Nat) (x y : Int) (w h : Option Int)
    (font_text : Option (List Nat)) (font_color : Option (List Nat)) (align : Nat)
    (background : Option (List Nat)) : Except PyErr (State × Int × Int) :=
  if x > st.width ∨ y > st.height then .error .valueError
  else if x < 0 ∨ y < 0 then .error .valueError
  else if (w.any fun v => decide (v < 1)) || (h.any fun v => decide (v < 1)) then
    .error .valueError
  else
    let ft := match font_text with
      | none => guiFont_Tahoma_7_Regular
      | some f => f
    let p := set_font st (some ft) font_color
    match set_text_prop p.1 align background with
    | .error e => .error e
    | .ok st1 =>
      match (match w with
             | some v => Except.ok v
             | none => get_text_width st1 text) with
      | .error e => .error e
      | .ok wv =>
        match (match h with
               | some v => Except.ok v
               | none => (attr st1.font_height).map fun fh => (fh : Int)) with
        | .error e => .error e
        | .ok hv => .ok (st1, wv, hv)

/-- Modelled from the spec (amended reading of the glyph layout): the glyph
bitstream unpacked row-major, pixel cnt taking bit cnt mod width of bitmap
byte cnt div width, LSB first, foreground where the bit is set. -/
def rowMajorUnpack (f : List Nat) (fg bg : Nat × Nat) (c_width offset0 : Nat) :
    Nat → Nat → Except PyErr (List Nat)
  | _cnt, 0 => .ok []
  | cnt, n + 1 => do
    let b ← pyGet f ((offset0 + cnt / c_width : Nat) : Int)
    let px := if b &&& 2 ^ (cnt % c_width) ≠ 0 then [fg.1, fg.2] else [bg.1, bg.2]
    let rest ← rowMajorUnpack f fg bg c_width offset0 (cnt + 1) n
    pure (px ++ rest)

/-- Modelled from the spec: the column-major glyph layout the claim
describes, with bit index row + column times height, one new byte every
glyph-height bits, LSB first.  The output buffer stays row-major (pixel
cnt is row cnt div width, column cnt mod width), as the dynamic-area
compositing fixes that order. -/
def colMajorUnpack (f : List Nat) (fg bg : Nat × Nat) (height width offset0 : Nat) :
    Nat → Nat → Except PyErr (List Nat)
  | _cnt, 0 => .ok []
  | cnt, n + 1 => do
    let bitIndex := cnt / width + (cnt % width) * height
    let b ← pyGet f ((offset0 + bitIndex / height : Nat) : Int)
    let px := if b &&& 2 ^ (bitIndex % height) ≠ 0 then [fg.1, fg.2] else [bg.1, bg.2]
    let rest ← colMajorUnpack f fg bg height width offset0 (cnt + 1) n
    pure (px ++ rest)

/-- Modelled from the spec: the inverse of the 5-6-5 packing, recovering
the three channels with their lost low bits zeroed. -/
def decode565 (v : Nat) : List Nat :=
  [(v >>> 11) <<< 3, ((v >>> 5) &&& 0x3F) <<< 2, (v &&& 0x1F) <<< 3]

/-- A minimal concrete font table: header says first and last char 65 and
glyph height 2; the directory entry of char 65 gives width 2 and bitmap
offset 16; the bitmap bytes are 2 and 0 (only bit 1 of the first byte
set). -/
def fontA2x2 : List Nat := [0, 0, 65, 0, 65, 0, 2, 0, 2, 16, 0, 0, 0, 0, 0, 0, 2, 0]

/-- A driver state as draw_text would have it after a successful _set_font
and _set_text_prop on fontA2x2, with white foreground and black
background. -/
def stA2x2 : State :=
  { construction_state with
    font := some fontA2x2
    first_char := some 65
    last_char := some 65
    font_height := some 2
    font_color := some (255, 255)
    background := some (0, 0) }

/-- A concrete font table whose header declares the supported range 65..66,
yet which is long enough that the unchecked directory lookup of char 90
(index 8 + 4 times 25 = 108) lands inside the table and reads 5. -/
def fontAB : List Nat := [0, 0, 65, 0, 66, 0, 7] ++ List.replicate 101 0 ++ [5, 0]

/-- A driver state holding fontAB with its parsed header fields. -/
def stAB : State :=
  { construction_state with
    font := some fontAB
    first_char := some 65
    last_char := some 66 }

/-- A concrete font table with directory widths 5 (char 65) and 7 (char 66),
used to evaluate the text-width measurement. -/
def fontW57 : List Nat := [0, 0, 65, 0, 66, 0, 7, 0, 5, 0, 0, 0, 7, 0, 0, 0]

/-- A driver state holding fontW57 with its parsed first_char. -/
def stW57 : State :=
  { construction_state with
    font := some fontW57
    first_char := some 65 }

/-! Helper lemmas. -/

lemma pyGet_oob (l : List Nat) (i : Int) (h0 : 0 ≤ i) (hl : (l.length : Int) ≤ i) :
    pyGet l i = .error .indexError := by
  unfold pyGet
  rw [if_neg (by omega)]

lemma pyGet_error (l : List Nat) (i : Int) (e : PyErr) (h : pyGet l i = .error e) :
    e = .indexError := by
  unfold pyGet at h
  try dsimp only at h
  split at h <;> simp_all <;> split at h <;> simp_all

lemma attr_error {α : Type} (o : Option α) (e : PyErr) (h : attr o = .error e) :
    e = .attrError := by
  cases o <;> simp [attr] at h
  exact h.symm

lemma pyGet_three₀ (a b c : Nat) : pyGet [a, b, c] 0 = .ok a := by
  norm_num [pyGet]

lemma pyGet_three₁ (a b c : Nat) : pyGet [a, b, c] 1 = .ok b := by
  norm_num [pyGet]

lemma pyGet_three₂ (a b c : Nat) : pyGet [a, b, c] 2 = .ok c := by
  norm_num [pyGet]
  rfl

lemma color565_triple (r g b : Nat) :
    color565 [r, g, b] =
      .ok (((r &&& 0xF8) <<< 8) ||| ((g &&& 0xFC) <<< 3) ||| (b >>> 3)) := by
  rw [color565, pyGet_three₀, pyGet_three₁, pyGet_three₂]
  rfl

lemma set_color_triple (r g b : Nat) :
    set_color [r, g, b] =
      .ok ((((r &&& 0xF8) <<< 8) ||| ((g &&& 0xFC) <<< 3) ||| (b >>> 3)) >>> 8,
           (((r &&& 0xF8) <<< 8) ||| ((g &&& 0xFC) <<< 3) ||| (b >>> 3)) &&& 0x00FF) := by
  rw [set_color, color565_triple]
  rfl

lemma create_send_buffer_length (lenght : Int) (d1 d2 : Nat) :
    (create_send_buffer lenght d1 d2).length = 2 * lenght.toNat := by
  unfold create_send_buffer
  induction lenght.toNat with
  | zero => rfl
  | succ n ih => simp [List.replicate_succ, ih]; omega

/-! Claim theorems. -/

/-- Claim C9: for r in 0..3 set_rotation succeeds and the resulting
width/height pair is the swapped (160, 80) exactly when r is odd and the
native (80, 160) when r is even; any other rotation value fails with the
ValueError that models the InvalidArgument condition. -/
theorem set_rotation_dims (st : State) (r : Int) :
    ((r = 0 ∨ r = 1 ∨ r = 2 ∨ r = 3) →
      (set_rotation st r).toOption.map (fun p => (p.2.width, p.2.height)) =
        some (if r % 2 = 1 then ((160 : Int), (80 : Int)) else (80, 160))) ∧
    (¬(r = 0 ∨ r = 1 ∨ r = 2 ∨ r = 3) → set_rotation st r = .error .valueError) := by
  constructor
  · rintro (rfl | rfl | rfl | rfl) <;>
      simp [set_rotation, rotation_settings, ST7735_TFTWIDTH, ST7735_TFTHEIGHT,
        Except.toOption, ST7735_MAD_MX, ST7735_MAD_MY, ST7735_MAD_MH, ST7735_MAD_BGR,
        ST7735_MAD_MV]
  · intro h
    push_neg at h
    rw [set_rotation, if_pos (by simp [h.1, h.2.1, h.2.2.1, h.2.2.2])]

/-- Witness for set_rotation_dims at rotation 1 on the freshly constructed
state. -/
theorem set_rotation_dims_witness :
    (set_rotation construction_state 1).toOption.map (fun p => (p.2.width, p.2.height)) =
      some (if (1 : Int) % 2 = 1 then ((160 : Int), (80 : Int)) else (80, 160)) :=
  (set_rotation_dims construction_state 1).1 (Or.inr (Or.inl rfl))

/-- Claim C10: construction ends by calling set_rotation with its default
argument 1, leaving width 160, height 80, colstart 1, rowstart 26; among
all rotation values, only an explicit set_rotation 0 or 2 afterwards
yields the native 80 by 160 orientation. -/
theorem init_state_after_construction :
    init_device = .ok (ST7735_MAD_MV ||| ST7735_MAD_MY ||| ST7735_MAD_BGR, init_state) ∧
    set_rotation_default_arg = 1 ∧
    init_state.rotation = 1 ∧ init_state.width = 160 ∧ init_state.height = 80 ∧
    init_state.colstart = 1 ∧ init_state.rowstart = 26 ∧
    (∀ r : Int,
      (set_rotation init_state r).toOption.map (fun p => (p.2.width, p.2.height)) =
          some (80, 160) ↔
        (r = 0 ∨ r = 2)) := by
  refine ⟨by decide, by decide, by decide, by decide, by decide, by decide, by decide, ?_⟩
  intro r
  constructor
  · intro h
    by_cases h0 : r = 0
    · exact Or.inl h0
    by_cases h2 : r = 2
    · exact Or.inr h2
    exfalso
    by_cases h1 : r = 1
    · subst h1; exact absurd h (by decide)
    by_cases h3 : r = 3
    · subst h3; exact absurd h (by decide)
    have hmem : r ∉ ([0, 1, 2, 3] : List Int) := by simp [h0, h1, h2, h3]
    rw [set_rotation, if_pos hmem] at h
    simp [Except.toOption] at h
  · rintro (rfl | rfl) <;> decide

/-- Claim C2, evaluated at the failing input: draw_pixel 50 50 on the
post-construction state streams one encoded pixel but sets the window
bounds 51..2 and 76..27, because the source passes the constants 1, 1 to
_prepare; the single-pixel window the claim describes would be
prepare 50 50 50 50, which differs. -/
theorem draw_pixel_window_at_50_50 :
    draw_pixel init_state 50 50 [255, 255, 255] =
      .ok ({ x0 := 51, x1 := 2, y0 := 76, y1 := 27 }, [255, 255]) ∧
    ({ x0 := 51, x1 := 2, y0 := 76, y1 := 27 } : Window) ≠
      prepare init_state 50 50 50 50 := by
  decide

/-- Claim C3, evaluated at the failing input: draw_line at x 100 of length
100 on the 160-wide post-construction state runs past the right edge, yet
the emitted window spans columns 101..200 and the streamed buffer holds
100 pixels (200 bytes), not the truncated 60 pixels (120 bytes) with the
window ending at column 160 that the claim describes; the call is not
rejected. -/
theorem draw_line_at_100_len100 :
    init_state.width = 160 ∧
    draw_line init_state 100 0 100 [0, 0, 255] =
      .ok ({ x0 := 101, x1 := 200, y0 := 26, y1 := 26 }, create_send_buffer 100 0 31) ∧
    (create_send_buffer 100 0 31).length = 200 ∧
    (200 : Nat) ≠ 2 * (160 - 100) ∧
    ({ x0 := 101, x1 := 200, y0 := 26, y1 := 26 } : Window) ≠
      { x0 := 101, x1 := 160, y0 := 26, y1 := 26 } := by
  decide

/-- Claim C7: fill_rect clamps an origin sitting exactly on the far edge to
the last valid pixel, truncates an oversize width or height, streams a
buffer of exactly the truncated w times h pixels at 2 bytes each, and for
an origin beyond the edge, a negative origin, or w or h below 1 it fails
with the ValueError that models InvalidArgument before producing any
window or buffer. -/
theorem fill_rect_edge_policy (st : State) (x y w h : Int) (r g b : Nat) :
    ((0 ≤ x ∧ x ≤ st.width ∧ 0 ≤ y ∧ y ≤ st.height ∧ 1 ≤ w ∧ 1 ≤ h) →
      fill_rect st x y w h [r, g, b] =
        .ok (prepare st
               (if x = st.width then st.width - 1 else x)
               (if y = st.height then st.height - 1 else y)
               ((if x = st.width then st.width - 1 else x) +
                 (if (if x = st.width then st.width - 1 else x) + w > st.width
                  then st.width - (if x = st.width then st.width - 1 else x) else w) - 1)
               ((if y = st.height then st.height - 1 else y) +
                 (if (if y = st.height then st.height - 1 else y) + h > st.height
                  then st.height - (if y = st.height then st.height - 1 else y) else h) - 1),
             create_send_buffer
               ((if (if x = st.width then st.width - 1 else x) + w > st.width
                 then st.width - (if x = st.width then st.width - 1 else x) else w) *
                (if (if y = st.height then st.height - 1 else y) + h > st.height
                 then st.height - (if y = st.height then st.height - 1 else y) else h))
               ((((r &&& 0xF8) <<< 8) ||| ((g &&& 0xFC) <<< 3) ||| (b >>> 3)) >>> 8)
               ((((r &&& 0xF8) <<< 8) ||| ((g &&& 0xFC) <<< 3) ||| (b >>> 3)) &&& 0x00FF)) ∧
      ∀ d1 d2 : Nat, (create_send_buffer
          ((if (if x = st.width then st.width - 1 else x) + w > st.width
            then st.width - (if x = st.width then st.width - 1 else x) else w) *
           (if (if y = st.height then st.height - 1 else y) + h > st.height
            then st.height - (if y = st.height then st.height - 1 else y) else h))
          d1 d2).length =
        2 * ((if (if x = st.width then st.width - 1 else x) + w > st.width
              then st.width - (if x = st.width then st.width - 1 else x) else w) *
             (if (if y = st.height then st.height - 1 else y) + h > st.height
              then st.height - (if y = st.height then st.height - 1 else y) else h)).toNat) ∧
    ((x > st.width ∨ y > st.height ∨ x < 0 ∨ y < 0 ∨ w < 1 ∨ h < 1) →
      fill_rect st x y w h [r, g, b] = .error .valueError) := by
  constructor
  · rintro ⟨hx0, hxw, hy0, hyh, hw1, hh1⟩
    constructor
    · rw [fill_rect, if_neg (by omega), if_neg (by omega), set_color_triple]
    · intro d1 d2
      exact create_send_buffer_length _ d1 d2
  · intro herr
    by_cases hc1 : x > st.width ∨ y > st.height
    · rw [fill_rect, if_pos hc1]
    · rw [fill_rect, if_neg hc1, if_pos (by omega)]

/-- Witness for fill_rect_edge_policy: origin x exactly on the far edge of
the post-construction 160 by 80 state is clamped to 159, the width 5 is
truncated to 1, and the buffer holds 2 times 3 bytes. -/
theorem fill_rect_edge_policy_witness :
    fill_rect init_state 160 0 5 3 [255, 0, 0] =
      .ok ({ x0 := 160, x1 := 160, y0 := 26, y1 := 28 }, create_send_buffer 3 248 0) ∧
    (create_send_buffer 3 248 0).length = 2 * 3 := by
  have hmain := (fill_rect_edge_policy init_state 160 0 5 3 255 0 0).1 (by decide)
  exact ⟨by rw [hmain.1]; decide, hmain.2 248 0⟩

lemma and_f8 : ∀ v : Nat, v < 256 → v &&& 0xF8 = 8 * (v / 8) := by decide

lemma and_fc : ∀ v : Nat, v < 256 → v &&& 0xFC = 4 * (v / 4) := by decide

lemma pack_eq (r g b : Nat) (hr : r < 256) (hg : g < 256) (hb : b < 256) :
    ((r &&& 0xF8) <<< 8) ||| ((g &&& 0xFC) <<< 3) ||| (b >>> 3) =
      2048 * (r / 8) + 32 * (g / 4) + b / 8 := by
  have hB : 32 * (g / 4) < 2 ^ 11 := by norm_num; omega
  have hC : b / 8 < 2 ^ 5 := by norm_num; omega
  rw [and_f8 r hr, and_fc g hg, Nat.shiftLeft_eq, Nat.shiftLeft_eq,
    Nat.shiftRight_eq_div_pow]
  have e1 : 8 * (r / 8) * 2 ^ 8 = 2 ^ 11 * (r / 8) := by ring
  have e2 : 4 * (g / 4) * 2 ^ 3 = 32 * (g / 4) := by ring
  have e3 : b / 2 ^ 3 = b / 8 := by norm_num
  rw [e1, e2, e3, ← Nat.mul_add_lt_is_or hB (r / 8)]
  have e4 : 2 ^ 11 * (r / 8) + 32 * (g / 4) = 2 ^ 5 * (64 * (r / 8) + g / 4) := by ring
  rw [e4, ← Nat.mul_add_lt_is_or hC (64 * (r / 8) + g / 4)]
  ring

lemma decode_pack (r g b : Nat) (hr : r < 256) (hg : g < 256) (hb : b < 256) :
    decode565 (2048 * (r / 8) + 32 * (g / 4) + b / 8) =
      [r &&& 0xF8, g &&& 0xFC, b &&& 0xF8] := by
  have hA : r / 8 < 32 := by omega
  have hB : g / 4 < 64 := by omega
  have hC : b / 8 < 32 := by omega
  set v := 2048 * (r / 8) + 32 * (g / 4) + b / 8 with hv
  have h63 : (0x3F : Nat) = 2 ^ 6 - 1 := by norm_num
  have h31 : (0x1F : Nat) = 2 ^ 5 - 1 := by norm_num
  unfold decode565
  rw [Nat.shiftRight_eq_div_pow, Nat.shiftRight_eq_div_pow, h63, h31,
    Nat.and_pow_two_sub_one_eq_mod, Nat.and_pow_two_sub_one_eq_mod,
    Nat.shiftLeft_eq, Nat.shiftLeft_eq, Nat.shiftLeft_eq,
    and_f8 r hr, and_fc g hg, and_f8 b hb]
  have d1 : v / 2 ^ 11 = r / 8 := by omega
  have d2 : v / 2 ^ 5 % 2 ^ 6 = g / 4 := by omega
  have d3 : v % 2 ^ 5 = b / 8 := by omega
  rw [d1, d2, d3]
  simp only [List.cons.injEq, and_true]
  exact ⟨by ring, by ring, by ring⟩

/-- Claim C8: the 565 encoder packs the top 5 bits of red, the top 6 of
green and the top 5 of blue into one 16-bit value split into a high and a
low byte; decoding recovers exactly the channels with their low 3, 2 and
3 bits zeroed; one further encode of the decoded color reproduces the
same value; and [255, 0, 0] encodes to the bytes 0xF8, 0x00. -/
theorem color565_roundtrip (r g b : Nat) (hr : r < 256) (hg : g < 256) (hb : b < 256) :
    ∃ v, color565 [r, g, b] = .ok v ∧
      v = 2048 * (r / 8) + 32 * (g / 4) + b / 8 ∧
      set_color [r, g, b] = .ok (v >>> 8, v &&& 0x00FF) ∧
      v < 65536 ∧ (v >>> 8) * 256 + (v &&& 0x00FF) = v ∧
      decode565 v = [r &&& 0xF8, g &&& 0xFC, b &&& 0xF8] ∧
      color565 (decode565 v) = .ok v ∧
      set_color [255, 0, 0] = .ok (0xF8, 0x00) := by
  have hA : r / 8 < 32 := by omega
  have hB : g / 4 < 64 := by omega
  have hC : b / 8 < 32 := by omega
  refine ⟨2048 * (r / 8) + 32 * (g / 4) + b / 8, ?_, rfl, ?_, by omega, ?_, ?_, ?_, by decide⟩
  · rw [color565_triple, pack_eq r g b hr hg hb]
  · rw [set_color, color565_triple, pack_eq r g b hr hg hb]
    rfl
  · have e1 : (2048 * (r / 8) + 32 * (g / 4) + b / 8) >>> 8 =
        (2048 * (r / 8) + 32 * (g / 4) + b / 8) / 2 ^ 8 := Nat.shiftRight_eq_div_pow _ _
    have e2 : (2048 * (r / 8) + 32 * (g / 4) + b / 8) &&& 0x00FF =
        (2048 * (r / 8) + 32 * (g / 4) + b / 8) % 2 ^ 8 := by
      have h255 : (0x00FF : Nat) = 2 ^ 8 - 1 := by norm_num
      rw [h255, Nat.and_pow_two_sub_one_eq_mod]
    rw [e1, e2]
    omega
  · exact decode_pack r g b hr hg hb
  · rw [decode_pack r g b hr hg hb, color565_triple]
    have hf8 : ∀ a : Nat, a < 32 → (8 * a) &&& 0xF8 = 8 * a := by decide
    have hfc : ∀ a : Nat, a < 64 → (4 * a) &&& 0xFC = 4 * a := by decide
    rw [and_f8 r hr, and_fc g hg, and_f8 b hb, hf8 (r / 8) hA, hfc (g / 4) hB,
      Nat.shiftLeft_eq, Nat.shiftLeft_eq, Nat.shiftRight_eq_div_pow]
    have e3 : 8 * (b / 8) / 2 ^ 3 = b / 8 := by omega
    have e1 : 8 * (r / 8) * 2 ^ 8 = 2 ^ 11 * (r / 8) := by ring
    have e2 : 4 * (g / 4) * 2 ^ 3 = 32 * (g / 4) := by ring
    have hB2 : 32 * (g / 4) < 2 ^ 11 := by norm_num; omega
    have hC2 : b / 8 < 2 ^ 5 := by norm_num; omega
    rw [e3, e1, e2, ← Nat.mul_add_lt_is_or hB2 (r / 8)]
    have e4 : 2 ^ 11 * (r / 8) + 32 * (g / 4) = 2 ^ 5 * (64 * (r / 8) + g / 4) := by ring
    rw [e4, ← Nat.mul_add_lt_is_or hC2 (64 * (r / 8) + g / 4)]
    congr 1
    ring

/-- Witness for color565_roundtrip at the channels 201, 100, 53. -/
theorem color565_roundtrip_witness :
    ∃ v, color565 [201, 100, 53] = .ok v ∧
      v = 2048 * (201 / 8) + 32 * (100 / 4) + 53 / 8 ∧
      set_color [201, 100, 53] = .ok (v >>> 8, v &&& 0x00FF) ∧
      v < 65536 ∧ (v >>> 8) * 256 + (v &&& 0x00FF) = v ∧
      decode565 v = [201 &&& 0xF8, 100 &&& 0xFC, 53 &&& 0xF8] ∧
      color565 (decode565 v) = .ok v ∧
      set_color [255, 0, 0] = .ok (0xF8, 0x00) :=
  color565_roundtrip 201 100 53 (by norm_num) (by norm_num) (by norm_num)

lemma get_text_width_loop_ok (st : State) (f : List Nat) (fc : Nat)
    (hf : st.font = some f) (hfc : st.first_char = some fc) :
    ∀ (text ws : List Nat) (acc : Int),
      List.Forall₂
        (fun (c wc : Nat) => pyGet f (8 + pyShlInt ((c : Int) - (fc : Int)) 2) = .ok wc) text ws →
      get_text_width_loop st text acc = .ok (acc + (ws.sum : Nat) + (text.length : Nat)) := by
  intro text
  induction text with
  | nil =>
    intro ws acc hfa
    cases hfa
    simp [get_text_width_loop]
  | cons c cs ih =>
    intro ws acc hfa
    cases hfa with
    | cons hcw htail =>
      rw [get_text_width_loop, hfc, hf]
      simp only [attr, Bind.bind, Except.bind, hcw, ih _ _ htail]
      congr 1
      simp only [List.map_cons, List.sum_cons, List.length_cons]
      omega

/-- Claim C6 amended: the measured text width is the sum of the glyph
widths plus one spacing pixel per character, minus the trailing spacing,
which the source subtracts unconditionally; hence the empty string
measures -1, not 0, a single character measures its glyph width, and two
characters measure width(A) + width(B) + 1. -/
theorem get_text_width_formula (st : State) (f : List Nat) (fc : Nat) (text ws : List Nat)
    (hf : st.font = some f) (hfc : st.first_char = some fc)
    (hlook : List.Forall₂
      (fun (c wc : Nat) => pyGet f (8 + pyShlInt ((c : Int) - (fc : Int)) 2) = .ok wc) text ws) :
    get_text_width st [] = .ok (-1) ∧
    get_text_width st text = .ok ((ws.sum : Nat) + (text.length : Nat) - 1) := by
  constructor
  · rfl
  · rw [get_text_width]
    simp only [Bind.bind, Except.bind,
      get_text_width_loop_ok st f fc hf hfc text ws 0 hlook]
    congr 1
    ring

/-- Witness for get_text_width_formula on fontW57: the empty string
measures -1, and the two characters with glyph widths 5 and 7 measure
5 + 7 + 1 = 13. -/
theorem get_text_width_formula_witness :
    get_text_width stW57 [] = .ok (-1) ∧
    get_text_width stW57 [65, 66] =
      .ok ((([5, 7] : List Nat).sum : Nat) + (([65, 66] : List Nat).length : Nat) - 1) :=
  get_text_width_formula stW57 fontW57 65 [65, 66] [5, 7] rfl rfl
    (List.Forall₂.cons (by decide) (List.Forall₂.cons (by decide) List.Forall₂.nil))

/-- Claim C4 counterexample: draw_text with a font table too short for the
header does not report a FontError (nor any font error) to the caller;
the layout phase instead ends with the AttributeError raised later when
the never-set first_char is read. -/
theorem malformed_font_not_font_error :
    draw_text_layout construction_state [65] 0 0 none none (some [0, 0]) none 3 none ≠
      .error .fontError ∧
    draw_text_layout construction_state [65] 0 0 none none (some [0, 0]) none 3 none =
      .error .attrError := by
  decide

/-- Claim C4 amended: with a malformed font table (too short for the header
fields) the parse failure inside _set_font is caught and printed, never
reported to the caller; on a state with no previously set font metrics the
draw_text call then fails, still before any device write, with an
AttributeError when layout reads the unset first_char. -/
theorem draw_text_malformed_font (st : State) (f : List Nat) (c : Nat) (cs : List Nat)
    (hfc : st.first_char = none) (hlen : f.length ≤ 2)
    (hx : 0 ≤ st.width) (hy : 0 ≤ st.height) :
    (set_font st (some f) none).2 = true ∧
    draw_text_layout st (c :: cs) 0 0 none none (some f) none 3 none =
      .error .attrError := by
  have h2 : pyGet f 2 = .error .indexError :=
    pyGet_oob f 2 (by norm_num) (by exact_mod_cast hlen)
  have h3 : pyGet f 3 = .error .indexError :=
    pyGet_oob f 3 (by norm_num) (by omega)
  have hsf : set_font st (some f) none = ({ st with font := some f }, true) := by
    rw [set_font, h2, h3]
  refine ⟨by rw [hsf], ?_⟩
  rw [draw_text_layout, if_neg (by omega), if_neg (by norm_num), if_neg (by decide)]
  have hstp : set_text_prop { st with font := some f } 3 none = .ok { st with font := some f, align := some 3, background := some (0, 0) } := by
    rw [set_text_prop]
    rfl
  simp only [hsf, hstp]
  have hgw : get_text_width { st with font := some f, align := some 3, background := some (0, 0) } (c :: cs) = .error .attrError := by
    rw [get_text_width, get_text_width_loop]
    have hfc2 : ({ st with font := some f, align := some 3, background := some (0, 0) } : State).first_char = none := hfc
    rw [hfc2]
    rfl
  simp only [hgw]

/-- Witness for draw_text_malformed_font: the freshly constructed state and
the two-byte table [0, 0]. -/
theorem draw_text_malformed_font_witness :
    (set_font construction_state (some [0, 0]) none).2 = true ∧
    draw_text_layout construction_state [65] 0 0 none none (some [0, 0]) none 3 none =
      .error .attrError :=
  draw_text_malformed_font construction_state [0, 0] 65 [] rfl (by norm_num)
    (by decide) (by decide)

/-- Claim C6 counterexample: the source subtracts the trailing spacing
unconditionally, so the measured width of the empty string is -1 and not
0 as the claim states. -/
theorem get_text_width_empty_not_zero :
    get_text_width construction_state [] = .ok (-1) ∧ (-1 : Int) ≠ 0 := by
  decide

lemma bind_error_elim {α β : Type} (x : Except PyErr α) (g : α → Except PyErr β) (e : PyErr)
    (h : (x >>= g) = .error e) :
    x = .error e ∨ ∃ a, x = .ok a ∧ g a = .error e := by
  cases x with
  | error e1 =>
    left
    simp only [Bind.bind, Except.bind, Except.error.injEq] at h
    rw [h]
  | ok a =>
    right
    exact ⟨a, rfl, by simpa only [Bind.bind, Except.bind] using h⟩

lemma get_text_width_loop_error (st : State) :
    ∀ (text : List Nat) (acc : Int) (e : PyErr),
      get_text_width_loop st text acc = .error e → e = .attrError ∨ e = .indexError := by
  intro text
  induction text with
  | nil =>
    intro acc e h
    simp [get_text_width_loop] at h
  | cons c cs ih =>
    intro acc e h
    rw [get_text_width_loop] at h
    rcases bind_error_elim _ _ _ h with h | ⟨fc, _h1, h⟩
    · exact Or.inl (attr_error _ _ h)
    try dsimp only at h
    rcases bind_error_elim _ _ _ h with h | ⟨f, _h2, h⟩
    · exact Or.inl (attr_error _ _ h)
    try dsimp only at h
    rcases bind_error_elim _ _ _ h with h | ⟨wc, _h3, h⟩
    · exact Or.inr (pyGet_error _ _ _ h)
    try dsimp only at h
    exact ih _ _ h

lemma get_text_width_error (st : State) (text : List Nat) (e : PyErr)
    (h : get_text_width st text = .error e) : e = .attrError ∨ e = .indexError := by
  rw [get_text_width] at h
  rcases bind_error_elim _ _ _ h with h | ⟨t, _h1, h⟩
  · exact get_text_width_loop_error st text 0 e h
  · simp [pure, Except.pure] at h

lemma writeLoop_error (f : List Nat) (fg bg : Nat × Nat) (cw : Nat) :
    ∀ (n mask byte xc offset : Nat) (buf : List Nat) (e : PyErr),
      writeLoop f fg bg cw n mask byte xc offset buf = .error e → e = .indexError := by
  intro n
  induction n with
  | zero =>
    intro mask byte xc offset buf e h
    simp [writeLoop] at h
  | succ n ih =>
    intro mask byte xc offset buf e h
    rw [writeLoop] at h
    try dsimp only at h
    by_cases hx : xc = 0
    · rw [if_pos hx] at h
      cases hpy : pyGet f (offset : Int) with
      | error e1 =>
        rw [hpy] at h
        simp only [Except.error.injEq] at h
        subst h
        exact pyGet_error _ _ _ hpy
      | ok b =>
        rw [hpy] at h
        try dsimp only at h
        split at h
        · exact ih _ _ _ _ _ _ h
        · exact ih _ _ _ _ _ _ h
    · rw [if_neg hx] at h
      try dsimp only at h
      split at h
      · exact ih _ _ _ _ _ _ h
      · exact ih _ _ _ _ _ _ h

lemma write_c_to_buf_error (st : State) (c : Nat) (e : PyErr)
    (h : write_c_to_buf st c = .error e) : e = .attrError ∨ e = .indexError := by
  rw [write_c_to_buf] at h
  rcases bind_error_elim _ _ _ h with h | ⟨fc, _h1, h⟩
  · exact Or.inl (attr_error _ _ h)
  try dsimp only at h
  rcases bind_error_elim _ _ _ h with h | ⟨f, _h2, h⟩
  · exact Or.inl (attr_error _ _ h)
  try dsimp only at h
  rcases bind_error_elim _ _ _ h with h | ⟨cw, _h3, h⟩
  · exact Or.inr (pyGet_error _ _ _ h)
  try dsimp only at h
  rcases bind_error_elim _ _ _ h with h | ⟨b1, _h4, h⟩
  · exact Or.inr (pyGet_error _ _ _ h)
  try dsimp only at h
  rcases bind_error_elim _ _ _ h with h | ⟨b2, _h5, h⟩
  · exact Or.inr (pyGet_error _ _ _ h)
  try dsimp only at h
  rcases bind_error_elim _ _ _ h with h | ⟨b3, _h6, h⟩
  · exact Or.inr (pyGet_error _ _ _ h)
  try dsimp only at h
  rcases bind_error_elim _ _ _ h with h | ⟨fh, _h7, h⟩
  · exact Or.inl (attr_error _ _ h)
  try dsimp only at h
  rcases bind_error_elim _ _ _ h with h | ⟨fg, _h8, h⟩
  · exact Or.inl (attr_error _ _ h)
  try dsimp only at h
  rcases bind_error_elim _ _ _ h with h | ⟨bg, _h9, h⟩
  · exact Or.inl (attr_error _ _ h)
  try dsimp only at h
  rcases bind_error_elim _ _ _ h with h | ⟨buf, _h10, h⟩
  · exact Or.inr (writeLoop_error _ _ _ _ _ _ _ _ _ _ _ h)
  · simp [pure, Except.pure] at h

/-- Claim C5 amended: the text pipeline performs no glyph-range check and
can raise no GlyphError at all: a character outside the supported range is
looked up through the same directory index 8 + 4 times (code minus
first_char), which either silently reads unrelated table bytes or raises a
plain IndexError; every failure of the width measurement or the glyph
unpacking is an AttributeError or IndexError. -/
theorem no_glyph_error (st : State) (text : List Nat) (c : Nat) :
    get_text_width st text ≠ .error .glyphError ∧
    write_c_to_buf st c ≠ .error .glyphError := by
  constructor
  · intro h
    rcases get_text_width_error st text _ h with h2 | h2 <;> exact PyErr.noConfusion h2
  · intro h
    rcases write_c_to_buf_error st c _ h with h2 | h2 <;> exact PyErr.noConfusion h2

/-- Witness for no_glyph_error on the post-construction state (no
hypotheses beyond the quantified inputs; instantiated at the state stAB
and the out-of-range character 90). -/
theorem no_glyph_error_witness :
    get_text_width stAB [90] ≠ .error .glyphError ∧
    write_c_to_buf stAB 90 ≠ .error .glyphError :=
  no_glyph_error stAB [90] 90

/-- Claim C5 counterexample: on the concrete font whose header declares the
range 65..66, the character 90 lies outside the supported range, yet the
whole layout phase of draw_text succeeds (reading the unrelated byte 5 as
the glyph width) instead of failing with a GlyphError before any write. -/
theorem glyph_range_unchecked :
    stAB.first_char = some 65 ∧ stAB.last_char = some 66 ∧ ¬(90 ≤ 66) ∧
    get_text_width stAB [90] = .ok 5 ∧
    draw_text_layout stAB [90] 0 0 none none (some fontAB) none 3 none =
      .ok ({ stAB with
             font_height := some 7
             font_color := some (255, 255)
             align := some 3
             background := some (0, 0) }, 5, 7) := by
  decide

lemma block_step_end (cw cnt : Nat) (h : cnt % cw + 1 = cw) :
    (cnt + 1) % cw = 0 ∧ (cnt + 1) / cw = cnt / cw + 1 := by
  have hcw : 0 < cw := by omega
  have hd := Nat.div_add_mod cnt cw
  have h1 : cnt + 1 = cw * (cnt / cw + 1) := by
    rw [Nat.mul_add, Nat.mul_one]
    omega
  constructor
  · rw [h1]
    exact Nat.mul_mod_right _ _
  · rw [h1]
    exact Nat.mul_div_cancel_left _ hcw

lemma block_step_mid (cw cnt : Nat) (h : cnt % cw + 1 ≠ cw) :
    (cnt + 1) % cw = cnt % cw + 1 ∧ (cnt + 1) / cw = cnt / cw := by
  rcases Nat.eq_zero_or_pos cw with hcw | hcw
  · subst hcw
    simp [Nat.mod_zero, Nat.div_zero]
  · have hlt : cnt % cw < cw := Nat.mod_lt _ hcw
    have hlt2 : cnt % cw + 1 < cw := by omega
    have hd := Nat.div_add_mod cnt cw
    have h1 : cnt + 1 = cw * (cnt / cw) + (cnt % cw + 1) := by omega
    constructor
    · rw [h1, Nat.mul_add_mod, Nat.mod_eq_of_lt hlt2]
    · rw [h1, Nat.mul_add_div hcw, Nat.div_eq_of_lt hlt2, Nat.add_zero]

lemma map_bind_append (X : Except PyErr (List Nat)) (px buf : List Nat) :
    X.map (fun rest => (buf ++ px) ++ rest) =
      (X.bind fun v => pure (px ++ v)).map fun rest => buf ++ rest := by
  cases X <;> simp [Except.map, Except.bind, pure, Except.pure, List.append_assoc]

lemma writeLoop_rowMajor (f : List Nat) (fg bg : Nat × Nat) (cw : Nat) :
    ∀ (n cnt offset0 mask byte : Nat) (buf : List Nat),
      (cnt % cw ≠ 0 →
        pyGet f ((offset0 + cnt / cw : Nat) : Int) = .ok byte ∧ mask = 2 ^ (cnt % cw)) →
      writeLoop f fg bg cw n mask byte (cnt % cw) (offset0 + cnt / cw) buf =
        (rowMajorUnpack f fg bg cw offset0 cnt n).map fun rest => buf ++ rest := by
  intro n
  induction n with
  | zero =>
    intro cnt offset0 mask byte buf _hinv
    simp [writeLoop, rowMajorUnpack, Except.map]
  | succ n ih =>
    intro cnt offset0 mask byte buf hinv
    rw [writeLoop, rowMajorUnpack]
    by_cases hz : cnt % cw = 0
    · rw [hz]
      cases hpy : pyGet f ((offset0 + cnt / cw : Nat) : Int) with
      | error e =>
        simp [hpy, Except.map, Bind.bind, Except.bind]
      | ok b =>
        simp only [hpy, eq_self_iff_true, if_true, pow_zero, Bind.bind, Except.bind]
        by_cases hend : (0 : Nat) + 1 = cw
        · obtain ⟨he1, he2⟩ := block_step_end cw cnt (by omega)
          rw [if_pos hend]
          have ih2 := ih (cnt + 1) offset0 (1 <<< 1) b
          rw [he1, he2, ← Nat.add_assoc] at ih2
          rw [ih2 _ (fun hc => absurd rfl hc)]
          exact map_bind_append _ _ _
        · obtain ⟨hm1, hm2⟩ := block_step_mid cw cnt (by omega)
          rw [if_neg hend]
          rw [hz] at hm1
          have ih2 := ih (cnt + 1) offset0 (1 <<< 1) b
          rw [hm1, hm2] at ih2
          rw [ih2 _ (fun _hc => ⟨hpy, by decide⟩)]
          exact map_bind_append _ _ _
    · obtain ⟨hpy, hmask⟩ := hinv hz
      rw [if_neg hz]
      simp only [hpy, Bind.bind, Except.bind, ← hmask]
      by_cases hend : cnt % cw + 1 = cw
      · obtain ⟨he1, he2⟩ := block_step_end cw cnt hend
        rw [if_pos hend]
        have ih2 := ih (cnt + 1) offset0 (mask <<< 1) byte
        rw [he1, he2, ← Nat.add_assoc] at ih2
        rw [ih2 _ (fun hc => absurd rfl hc)]
        exact map_bind_append _ _ _
      · obtain ⟨hm1, hm2⟩ := block_step_mid cw cnt hend
        rw [if_neg hend]
        have ih2 := ih (cnt + 1) offset0 (mask <<< 1) byte
        rw [hm1, hm2] at ih2
        rw [ih2 _ (fun _hc => ⟨hpy, by rw [hmask, Nat.shiftLeft_eq]; ring⟩)]
        exact map_bind_append _ _ _

/-- Claim C1 amended: _write_c_to_buf unpacks each glyph bitmap row-major,
not column-major: output pixel cnt of the row-major buffer takes bit
cnt mod width (LSB first, masked as 2 to that power) of bitmap byte
cnt div width, so a new byte is fetched from the font table every
glyph-width bits; the two foreground bytes are written where the bit is
set and the two background bytes where it is clear. -/
theorem write_c_to_buf_row_major (st : State) (f : List Nat) (fc cw b1 b2 b3 fh : Nat)
    (fg bg : Nat × Nat) (c : Nat)
    (hf : st.font = some f) (hfc : st.first_char = some fc) (hfh : st.font_height = some fh)
    (hcol : st.font_color = some fg) (hbg : st.background = some bg)
    (hcw : pyGet f (8 + pyShlInt ((c : Int) - (fc : Int)) 2) = .ok cw)
    (h1 : pyGet f (8 + pyShlInt ((c : Int) - (fc : Int)) 2 + 1) = .ok b1)
    (h2 : pyGet f (8 + pyShlInt ((c : Int) - (fc : Int)) 2 + 2) = .ok b2)
    (h3 : pyGet f (8 + pyShlInt ((c : Int) - (fc : Int)) 2 + 3) = .ok b3) :
    write_c_to_buf st c =
      (rowMajorUnpack f fg bg cw (b1 ||| (b2 <<< 8) ||| (b3 <<< 16)) 0 (fh * cw)).map
        fun buf => (buf, cw) := by
  rw [write_c_to_buf, hfc, hf, hfh, hcol, hbg]
  simp only [attr, Bind.bind, Except.bind, hcw, h1, h2, h3]
  have hloop := writeLoop_rowMajor f fg bg cw (fh * cw) 0
    (b1 ||| (b2 <<< 8) ||| (b3 <<< 16)) 0 0 []
    (fun hc => absurd (Nat.zero_mod cw) hc)
  rw [Nat.zero_mod, Nat.zero_div, Nat.add_zero] at hloop
  rw [hloop]
  cases hrec : rowMajorUnpack f fg bg cw (b1 ||| (b2 <<< 8) ||| (b3 <<< 16)) 0 (fh * cw) <;>
    simp [Except.map, Bind.bind, Except.bind, pure, Except.pure]

/-- Witness for write_c_to_buf_row_major on the concrete 2 by 2 glyph of
fontA2x2. -/
theorem write_c_to_buf_row_major_witness :
    write_c_to_buf stA2x2 65 =
      (rowMajorUnpack fontA2x2 (255, 255) (0, 0) 2 16 0 4).map fun buf => (buf, 2) :=
  write_c_to_buf_row_major stA2x2 fontA2x2 65 2 16 0 0 2 (255, 255) (0, 0) 65
    rfl rfl rfl rfl rfl (by decide) (by decide) (by decide) (by decide)

/-- Claim C1 counterexample: on the concrete 2 by 2 glyph whose bitmap
bytes are 2 and 0, the code produces the buffer with the foreground at
row-major pixel 1 (row 0, column 1: bit 1 of the first byte), while the
claimed column-major layout (bit index row + column times height, new
byte every glyph-height bits) would put the foreground at pixel 2
(row 1, column 0); the two buffers differ. -/
theorem glyph_unpack_not_col_major :
    stA2x2.font_height = some 2 ∧
    pyGet fontA2x2 8 = .ok 2 ∧
    pyGet fontA2x2 9 = .ok 16 ∧
    pyGet fontA2x2 16 = .ok 2 ∧
    write_c_to_buf stA2x2 65 = .ok ([0, 0, 255, 255, 0, 0, 0, 0], 2) ∧
    colMajorUnpack fontA2x2 (255, 255) (0, 0) 2 2 16 0 4 =
      .ok [0, 0, 0, 0, 255, 255, 0, 0] ∧
    ([0, 0, 255, 255, 0, 0, 0, 0] : List Nat) ≠ [0, 0, 0, 0, 255, 255, 0, 0] := by
  decide

end ST7735
